import Mathlib

/-!
Shallow embedding of the displayboard repository's concurrent-behavior
orchestration layer: the video process supervisor
(src/displayboard/video_loop.py and src/skaven/video_loop.py), the
rats-horde weighted channel picker (src/displayboard/sounds.py,
rats_loop), the shutdown path (src/skaven/main.py), the bell swing
sequence (src/skaven/bell.py), and the lighting loop
(src/displayboard/lighting.py, src/skaven/lighting.py).

Python exceptions are modelled by an explicit exception type; randomness
and the external environment (event waits, subprocess behaviour) are
modelled by explicit oracle parameters.  All definitions are executable.
-/

namespace Displayboard

/-- Python exception classes that arise in the modelled code paths.
FileNotFoundError is a subclass of OSError; KeyboardInterrupt derives
BaseException, not Exception; every other constructor is an Exception
subclass. -/
inductive PyExn where
  | fileNotFound
  | osError
  | calledProcessError
  | keyboardInterrupt
  | valueError
  | attributeError
  | runtimeError
  | otherError
deriving DecidableEq, Repr, Fintype

/-- Whether the exception is caught by a Python `except OSError` clause
(FileNotFoundError is an OSError subclass). -/
def PyExn.isOSError : PyExn → Bool
  | .fileNotFound => true
  | .osError => true
  | _ => false

/-- Whether the exception is caught by a Python `except Exception` clause
(KeyboardInterrupt derives BaseException and is not caught). -/
def PyExn.isException : PyExn → Bool
  | .keyboardInterrupt => false
  | _ => true

/-- A subprocess handle (subprocess.Popen object), identified by pid. -/
structure Proc where
  pid : Nat
deriving DecidableEq, Repr

/-- Behaviour of process.poll() on an existing handle at this call:
the process is still alive (poll returns None), has exited with a code
(poll returns the code), or the poll call itself raises an unexpected
exception. -/
inductive PollResult where
  | alive
  | exited (code : Int)
  | raisesUnexpected
deriving DecidableEq, Repr

/-- Behaviour of subprocess.Popen for this launch attempt: success
yields a fresh handle together with what new_process.poll() sees after
the 0.1 s grace sleep (none = still alive, some code = died
immediately); otherwise Popen raises the given exception. -/
inductive LaunchOutcome where
  | ok (p : Proc) (graceExit : Option Int)
  | raise (e : PyExn)
deriving DecidableEq, Repr

/-- Log messages emitted by handle_video_process, tagged by content. -/
inductive VLog where
  | infoStarting
  | errDiedImmediately
  | warnPlaybackDisabled
  | hintVideoDisabled
  | errFailedToStart
  | errFileNotFound
  | errCalledProcessError
  | infoKeyboardInterrupt
  | errUnexpected
deriving DecidableEq, Repr

/-- Result of one handle_video_process call: the returned handle, whether
subprocess.Popen was invoked, and the log messages emitted. -/
structure HVPRet where
  ret : Option Proc
  spawned : Bool
  logs : List VLog
deriving DecidableEq, Repr

/-- process.poll() as an exception-aware computation. -/
def pollExc : PollResult → Except PyExn (Option Int)
  | .alive => .ok none
  | .exited c => .ok (some c)
  | .raisesUnexpected => .error .otherError

/-- The condition `process is None or process.poll() is not None` of
handle_video_process, as an exception-aware computation. -/
def hvpNeedsStart (process : Option Proc) (pr : PollResult) :
    Except PyExn Bool :=
  match process with
  | none => .ok true
  | some _ =>
    match pollExc pr with
    | .ok r => .ok r.isSome
    | .error e => .error e

/-- The try-block body of displayboard handle_video_process
(src/displayboard/video_loop.py lines 118-158): start or restart mpv,
with the inner try/except OSError and the 0.1 s immediate-crash check.
On an uncaught exception the whole pair (exception, effects so far) is
returned so the outer handlers can be applied. -/
def hvpBody (process : Option Proc) (pr : PollResult)
    (launch : LaunchOutcome) : Except (PyExn × Bool) HVPRet :=
  match hvpNeedsStart process pr with
  | .error e => .error (e, false)
  | .ok false => .ok { ret := process, spawned := false, logs := [] }
  | .ok true =>
    match launch with
    | .ok newp graceExit =>
      match graceExit with
      | some _ =>
        .ok { ret := none, spawned := true
              logs := [.infoStarting, .errDiedImmediately,
                       .warnPlaybackDisabled, .hintVideoDisabled] }
      | none =>
        .ok { ret := some newp, spawned := true, logs := [.infoStarting] }
    | .raise e =>
      if e.isOSError then
        .ok { ret := none, spawned := true
              logs := [.infoStarting, .errFailedToStart, .hintVideoDisabled] }
      else .error (e, true)

/-- displayboard handle_video_process
(src/displayboard/video_loop.py lines 114-181): the try-block body with
the outer exception handlers.  The handlers for CalledProcessError and
for the generic Exception fall through to the final `return process`. -/
def handleVideoProcess (process : Option Proc) (pr : PollResult)
    (launch : LaunchOutcome) : Except PyExn HVPRet :=
  match hvpBody process pr launch with
  | .ok r => .ok r
  | .error (e, sp) =>
    match e with
    | .fileNotFound =>
      .ok { ret := none, spawned := sp, logs := [.errFileNotFound] }
    | .calledProcessError =>
      .ok { ret := process, spawned := sp, logs := [.errCalledProcessError] }
    | .keyboardInterrupt =>
      .ok { ret := none, spawned := sp, logs := [.infoKeyboardInterrupt] }
    | e =>
      if e.isException then
        .ok { ret := process, spawned := sp, logs := [.errUnexpected] }
      else .error e

/-- The try-block body of skaven handle_video_process
(src/skaven/video_loop.py lines 80-90): no inner OSError handler and no
grace-window check; Popen's handle is returned directly. -/
def skavenHvpBody (process : Option Proc) (pr : PollResult)
    (launch : LaunchOutcome) : Except (PyExn × Bool) HVPRet :=
  match hvpNeedsStart process pr with
  | .error e => .error (e, false)
  | .ok false => .ok { ret := process, spawned := false, logs := [] }
  | .ok true =>
    match launch with
    | .ok newp _ =>
      .ok { ret := some newp, spawned := true, logs := [.infoStarting] }
    | .raise e => .error (e, true)

/-- skaven handle_video_process (src/skaven/video_loop.py lines
76-113): same outer exception handlers as the displayboard variant. -/
def skavenHandleVideoProcess (process : Option Proc) (pr : PollResult)
    (launch : LaunchOutcome) : Except PyExn HVPRet :=
  match skavenHvpBody process pr launch with
  | .ok r => .ok r
  | .error (e, sp) =>
    match e with
    | .fileNotFound =>
      .ok { ret := none, spawned := sp, logs := [.errFileNotFound] }
    | .calledProcessError =>
      .ok { ret := process, spawned := sp, logs := [.errCalledProcessError] }
    | .keyboardInterrupt =>
      .ok { ret := none, spawned := sp, logs := [.infoKeyboardInterrupt] }
    | e =>
      if e.isException then
        .ok { ret := process, spawned := sp, logs := [.errUnexpected] }
      else .error e

/-- Per-iteration environment for run_video_loop: the result of
event.wait at the top of the iteration, and the poll and launch
behaviour seen by handle_video_process this tick. -/
structure Tick where
  eventSet : Bool
  pr : PollResult
  launch : LaunchOutcome
deriving DecidableEq, Repr

/-- Accumulated observation of a run_video_loop execution prefix. -/
structure RunState where
  lastProc : Option Proc
  calls : Nat
  spawns : Nat
  exited : Bool
deriving DecidableEq, Repr

/-- The while loop of displayboard run_video_loop
(src/displayboard/video_loop.py lines 104-110): each tick waits on the
event, calls handle_video_process, and breaks out of the loop when it
returns None.  A finite tick list models the observed prefix of the
(potentially infinite) loop; `exited` records whether the loop has
terminated within that prefix. -/
def runVideoLoopAux (process : Option Proc) (st : RunState) :
    List Tick → Except PyExn RunState
  | [] => .ok st
  | t :: rest =>
    if t.eventSet then .ok { st with exited := true }
    else
      match handleVideoProcess process t.pr t.launch with
      | .error e => .error e
      | .ok r =>
        let st' := { st with
          calls := st.calls + 1
          spawns := st.spawns + (if r.spawned then 1 else 0) }
        match r.ret with
        | none => .ok { st' with exited := true }
        | some p =>
          runVideoLoopAux (some p) { st' with lastProc := some p } rest

/-- displayboard run_video_loop (src/displayboard/video_loop.py lines
93-111): returns immediately in a headless or video-disabled
environment, otherwise runs the poll loop over the observed ticks. -/
def runVideoLoop (headless : Bool) (ticks : List Tick) :
    Except PyExn RunState :=
  if headless then
    .ok { lastProc := none, calls := 0, spawns := 0, exited := true }
  else
    runVideoLoopAux none
      { lastProc := none, calls := 0, spawns := 0, exited := false } ticks

/-- config.py line 61: SOUND_VOLUME_DEFAULT = 0.75. -/
def SOUND_VOLUME_DEFAULT : ℚ := 3 / 4

/-- random.randint(lo, hi): inclusive on both ends; raises ValueError
when the range is empty.  The drawn value is determined by the oracle
seed, reduced into the valid range. -/
def randint (lo hi choice : Nat) : Except PyExn Nat :=
  if hi < lo then .error .valueError
  else .ok (lo + choice % (hi + 1 - lo))

/-- Recursive worker for random.sample: repeatedly pick a position
(determined by the next oracle seed) and remove it from the remaining
population, so picks are distinct positions without replacement. -/
def sampleAux {α : Type} : List α → Nat → List Nat → List α
  | _, 0, _ => []
  | [], _ + 1, _ => []
  | a :: pop, n + 1, seeds =>
    let l := a :: pop
    let i := seeds.headD 0 % l.length
    l.getD i a :: sampleAux (l.eraseIdx i) n seeds.tail

/-- random.sample(pop, n): raises ValueError when n exceeds the
population size, otherwise returns n distinct elements. -/
def sample {α : Type} (pop : List α) (n : Nat) (seeds : List Nat) :
    Except PyExn (List α) :=
  if pop.length < n then .error .valueError
  else .ok (sampleAux pop n seeds)

/-- random.random(): a value in [0, 1), determined by an oracle seed. -/
def randFloat (s : Nat) : ℚ := ((s % 1000 : Nat) : ℚ) / 1000

/-- Volume assignment of rats_loop (src/displayboard/sounds.py lines
199-207): tot = sum(weights) or 1.0, then each volume is
base * (weight / tot). -/
def volumesOf (base : ℚ) (weights : List ℚ) : List ℚ :=
  let tot := if weights.sum = 0 then 1 else weights.sum
  weights.map (fun w => base * (w / tot))

/-- One play call of rats_loop: channels[chan].play(sound-of-item) after
snd.set_volume(vol). -/
structure PlayCall (α : Type) where
  chan : Nat
  item : α
  vol : ℚ
deriving DecidableEq, Repr

/-- The `for idx, p in enumerate(picks)` loop of rats_loop: pair each
picked item (already zipped with its volume) with its running channel
index. -/
def playCalls {α : Type} (startIdx : Nat) :
    List (α × ℚ) → List (PlayCall α)
  | [] => []
  | (p, v) :: rest =>
    { chan := startIdx, item := p, vol := v } :: playCalls (startIdx + 1) rest

/-- Per-iteration oracle for rats_loop: the event observations at the
three interruption points and the random draws. -/
structure RatsRand where
  setAtTop : Bool
  setAfterFade : Bool
  nChoice : Nat
  sampleSeeds : List Nat
  weightSeeds : List Nat
  setAfterSleep : Bool
deriving DecidableEq, Repr

/-- Outcome of one rats_loop iteration body: break out of the while
loop, or continue to the next iteration; either way carrying the play
calls performed. -/
inductive IterStep (α : Type) where
  | brk (plays : List (PlayCall α))
  | next (plays : List (PlayCall α))
deriving DecidableEq, Repr

/-- The play calls carried by an iteration outcome. -/
def IterStep.plays {α : Type} : IterStep α → List (PlayCall α)
  | .brk ps => ps
  | .next ps => ps

/-- One iteration body of rats_loop (src/displayboard/sounds.py lines
187-212), entered with the while condition already known false: fade
out all channels, wait (break if the event became set), draw
n = randint(1, min(len(channels), len(rat_files))), sample n distinct
files, draw weights, normalize to volumes, play pick i on channel i,
then wait the inter-horde interval (break if the event became set). -/
def ratsIter {α : Type} (files : List α) (nchans : Nat) (o : RatsRand) :
    Except PyExn (IterStep α) :=
  if o.setAfterFade then .ok (.brk []) else
  let maxN := min nchans files.length
  match randint 1 maxN o.nChoice with
  | .error e => .error e
  | .ok n =>
    match sample files n o.sampleSeeds with
    | .error e => .error e
    | .ok picks =>
      let weights :=
        (List.range picks.length).map (fun i => randFloat (o.weightSeeds.getD i 0))
      let vols := volumesOf SOUND_VOLUME_DEFAULT weights
      let plays := playCalls 0 (picks.zip vols)
      if o.setAfterSleep then .ok (.brk plays) else .ok (.next plays)

/-- The while loop of rats_loop over an observed trace of iteration
oracles, accumulating play calls.  An exhausted trace means the loop is
still running within the observed prefix. -/
def ratsLoopAux {α : Type} (files : List α) (nchans : Nat) :
    List RatsRand → List (PlayCall α) → Except PyExn (List (PlayCall α))
  | [], acc => .ok acc
  | o :: rest, acc =>
    if o.setAtTop then .ok acc
    else
      match ratsIter files nchans o with
      | .error e => .error e
      | .ok (.brk ps) => .ok (acc ++ ps)
      | .ok (.next ps) => ratsLoopAux files nchans rest (acc ++ ps)

/-- rats_loop (src/displayboard/sounds.py lines 170-212): returns
immediately when the file pool is empty; there is no corresponding
guard for an empty channel list. -/
def ratsLoop {α : Type} (files : List α) (nchans : Nat)
    (trace : List RatsRand) : Except PyExn (List (PlayCall α)) :=
  if files.isEmpty then .ok []
  else ratsLoopAux files nchans trace []

/-- Log entries emitted by _join_threads for one task. -/
inductive JoinLog where
  | joined
  | warnAttr
  | warnRuntime
deriving DecidableEq, Repr

/-- _join_threads (src/skaven/main.py lines 213-232): join each thread
in order; AttributeError and RuntimeError from a join are logged as
warnings and swallowed; any other exception would propagate.  A thread
is modelled by its join behaviour: none = joins cleanly (also the case
for an already-finished thread), some e = the join call raises e. -/
def joinThreadsAux : List (Option PyExn) → List JoinLog →
    Except PyExn (List JoinLog)
  | [], acc => .ok acc
  | none :: ts, acc => joinThreadsAux ts (acc ++ [.joined])
  | some .attributeError :: ts, acc => joinThreadsAux ts (acc ++ [.warnAttr])
  | some .runtimeError :: ts, acc => joinThreadsAux ts (acc ++ [.warnRuntime])
  | some e :: _, _ => .error e

/-- _join_threads entry point. -/
def joinThreads (ts : List (Option PyExn)) : Except PyExn (List JoinLog) :=
  joinThreadsAux ts []

/-- How the pre-join phase of handle_shutdown ends within the observed
window: the try-block finished, a KeyboardInterrupt arrived (caught by
the except clause), or the phase is still blocked. -/
inductive PrePhase where
  | exitedNormally
  | interrupted
  | stillRunning
deriving DecidableEq, Repr

/-- The video-disabled branch of handle_shutdown (src/skaven/main.py
lines 201-204): `while not stop_event.is_set(): stop_event.wait(...)`.
Nothing inside the loop sets the event, so with the event unset the loop
spins until a KeyboardInterrupt arrives during some wait; the trace
lists interrupt arrivals per wait. -/
def noVideoWaitLoop (eventSet : Bool) : List Bool → PrePhase
  | [] => if eventSet then .exitedNormally else .stillRunning
  | intr :: rest =>
    if eventSet then .exitedNormally
    else if intr then .interrupted
    else noVideoWaitLoop eventSet rest

/-- Environment of one handle_shutdown call: which branch is taken, the
stop-event state at entry, interrupt arrivals during the no-video waits,
and (for the video branch) how the video_loop.main call ends. -/
structure ShutdownEnv where
  noVideo : Bool
  eventSet : Bool
  interrupts : List Bool
  videoPhase : PrePhase
deriving DecidableEq, Repr

/-- The pre-join phase of handle_shutdown (src/skaven/main.py lines
196-206): re-run video playback, or wait on the stop event, until the
try block ends or a KeyboardInterrupt is caught. -/
def shutdownPrePhase (env : ShutdownEnv) : PrePhase :=
  if env.noVideo then noVideoWaitLoop env.eventSet env.interrupts
  else env.videoPhase

/-- Observable outcome of one handle_shutdown call. -/
inductive ShutdownResult where
  | done (eventSet : Bool) (joinLogs : List JoinLog)
  | blocked
  | raised (e : PyExn)
deriving DecidableEq, Repr

/-- handle_shutdown (src/skaven/main.py lines 181-210): run the
pre-join phase; only once it exits (normally or via the caught
KeyboardInterrupt) set the stop event and join all threads. -/
def handleShutdown (env : ShutdownEnv) (tasks : List (Option PyExn)) :
    ShutdownResult :=
  match shutdownPrePhase env with
  | .stillRunning => .blocked
  | _ =>
    match joinThreads tasks with
    | .ok logs => .done true logs
    | .error e => .raised e

/-- One swing step of move_bell: the stop-event check at the top of the
iteration, whether the servo position assignment raises, and whether
the inter-swing wait is interrupted by the stop event. -/
structure SwingStep where
  stopAtTop : Bool
  setRaises : Option PyExn
  waitInterrupted : Bool
deriving DecidableEq, Repr

/-- Servo effects performed by move_bell. -/
inductive BellEv where
  | setPos
  | mid
deriving DecidableEq, Repr

/-- The for loop of move_bell (src/skaven/bell.py lines 128-145):
each iteration breaks on the stop event, assigns a random servo
position (an Exception from the assignment is stored in error_in_move
and breaks the loop; a BaseException such as KeyboardInterrupt would
propagate), then waits (breaking if interrupted).  Returns the servo
effects and whether error_in_move was set. -/
def bellSwings : List SwingStep → Except PyExn (List BellEv × Bool)
  | [] => .ok ([], false)
  | s :: rest =>
    if s.stopAtTop then .ok ([], false)
    else
      match s.setRaises with
      | some e => if e.isException then .ok ([], true) else .error e
      | none =>
        if s.waitInterrupted then .ok ([.setPos], false)
        else
          match bellSwings rest with
          | .error e => .error e
          | .ok (evs, err) => .ok (.setPos :: evs, err)

/-- Observable outcome of move_bell: servo effects in order, and the
two logged error conditions. -/
structure MoveBellResult where
  effects : List BellEv
  swingError : Bool
  midError : Bool
deriving DecidableEq, Repr

/-- move_bell (src/skaven/bell.py lines 101-159): with no servo it logs
and returns; otherwise it runs the swing loop, then always attempts
_servo.mid(), catching an Exception from the parking call into
cleanup_error, and logs both stored errors. -/
def moveBell (servoPresent : Bool) (steps : List SwingStep)
    (midRaises : Option PyExn) : Except PyExn MoveBellResult :=
  if !servoPresent then
    .ok { effects := [], swingError := false, midError := false }
  else
    match bellSwings steps with
    | .error e => .error e
    | .ok (evs, err) =>
      match midRaises with
      | none =>
        .ok { effects := evs ++ [.mid], swingError := err, midError := false }
      | some e =>
        if e.isException then
          .ok { effects := evs ++ [.mid], swingError := err, midError := true }
        else .error e

/-- One iteration of the lighting loop: the event.wait result at the
top, and whether the pixel-update body raises. -/
structure LightIter where
  eventSet : Bool
  bodyRaises : Option PyExn
deriving DecidableEq, Repr

/-- LED strip effects of the lighting loop. -/
inductive LightEv where
  | update
  | show
  | fill000
deriving DecidableEq, Repr

/-- The while loop of flicker_breathe (src/displayboard/lighting.py
lines 53-92): each iteration waits on the event (exit when set), writes
all pixels, and calls show; an exception in the body escapes the loop.
Returns none while still running within the observed trace, otherwise
the effects and the escaping exception, if any. -/
def lightingLoop : List LightIter → Option (List LightEv × Option PyExn)
  | [] => none
  | o :: rest =>
    if o.eventSet then some ([], none)
    else
      match o.bodyRaises with
      | some e => some ([.update], some e)
      | none =>
        match lightingLoop rest with
        | none => none
        | some (evs, exn) => some (.update :: .show :: evs, exn)

/-- flicker_breathe (src/displayboard/lighting.py lines 42-96): the
loop wrapped in try/finally; the finally clause fills the strip with
(0, 0, 0) and calls show before returning or re-raising. -/
def flickerBreathe (trace : List LightIter) :
    Option (List LightEv × Option PyExn) :=
  match lightingLoop trace with
  | none => none
  | some (evs, exn) => some (evs ++ [.fill000, .show], exn)

/-- The while loop of skaven_flicker_breathe (src/skaven/lighting.py
lines 58-107), structurally identical to the displayboard variant. -/
def skavenLightingLoop : List LightIter → Option (List LightEv × Option PyExn)
  | [] => none
  | o :: rest =>
    if o.eventSet then some ([], none)
    else
      match o.bodyRaises with
      | some e => some ([.update], some e)
      | none =>
        match skavenLightingLoop rest with
        | none => none
        | some (evs, exn) => some (.update :: .show :: evs, exn)

/-- skaven_flicker_breathe (src/skaven/lighting.py lines 50-112): the
loop wrapped in try/finally with the same blanking finally clause. -/
def skavenFlickerBreathe (trace : List LightIter) :
    Option (List LightEv × Option PyExn) :=
  match skavenLightingLoop trace with
  | none => none
  | some (evs, exn) => some (evs ++ [.fill000, .show], exn)

/-! Helper lemmas about the randomness primitives. -/

theorem subperm_cons_cons {α : Type} {l₁ l₂ : List α} (a : α)
    (h : List.Subperm l₁ l₂) : List.Subperm (a :: l₁) (a :: l₂) := by
  obtain ⟨l, hp, hs⟩ := h
  exact ⟨a :: l, hp.cons a, hs.cons₂ a⟩

theorem getElem_cons_eraseIdx_perm {α : Type} [DecidableEq α] {l : List α}
    {i : Nat} (h : i < l.length) :
    List.Perm (l[i] :: l.eraseIdx i) l := by
  have h1 : List.Perm l (l[i] :: l.erase (l[i])) :=
    List.perm_cons_erase (List.getElem_mem h)
  have h2 : List.Perm (l.erase (l[i])) (l.eraseIdx i) :=
    List.erase_getElem h
  exact (h2.cons (l[i])).symm.trans h1.symm

theorem sampleAux_subperm {α : Type} [DecidableEq α] :
    ∀ (n : Nat) (pop : List α) (seeds : List Nat),
      List.Subperm (sampleAux pop n seeds) pop
  | 0, pop, _ => by
    simp only [sampleAux]
    exact List.nil_subperm
  | _ + 1, [], _ => by
    simp only [sampleAux]
    exact List.nil_subperm
  | n + 1, a :: pop, seeds => by
    have hil : seeds.headD 0 % (a :: pop).length < (a :: pop).length :=
      Nat.mod_lt _ (by simp)
    have IH := sampleAux_subperm n
      ((a :: pop).eraseIdx (seeds.headD 0 % (a :: pop).length)) seeds.tail
    have hcons := subperm_cons_cons
      ((a :: pop)[seeds.headD 0 % (a :: pop).length]) IH
    have hperm := getElem_cons_eraseIdx_perm (l := a :: pop) hil
    have hem : sampleAux (a :: pop) (n + 1) seeds =
        (a :: pop)[seeds.headD 0 % (a :: pop).length] ::
          sampleAux
            ((a :: pop).eraseIdx (seeds.headD 0 % (a :: pop).length))
            n seeds.tail := by
      simp only [sampleAux]
      rw [List.getD_eq_getElem _ _ hil]
    rw [hem]
    exact hcons.trans hperm.subperm

theorem sampleAux_length {α : Type} :
    ∀ (n : Nat) (pop : List α) (seeds : List Nat), n ≤ pop.length →
      (sampleAux pop n seeds).length = n
  | 0, pop, seeds, _ => by simp only [sampleAux, List.length_nil]
  | _ + 1, [], _, h => by simp at h
  | n + 1, a :: pop, seeds, h => by
    simp only [sampleAux, List.length_cons]
    have hil : seeds.headD 0 % (pop.length + 1) < (a :: pop).length := by
      simp only [List.length_cons]
      exact Nat.mod_lt _ (by omega)
    have hlen := List.length_eraseIdx_add_one hil
    have hrec := sampleAux_length n
      ((a :: pop).eraseIdx (seeds.headD 0 % (pop.length + 1))) seeds.tail
      (by simp only [List.length_cons] at hlen h; omega)
    rw [hrec]

theorem sampleAux_nodup {α : Type} [DecidableEq α] (n : Nat) (pop : List α)
    (seeds : List Nat) (h : pop.Nodup) : (sampleAux pop n seeds).Nodup := by
  obtain ⟨l, hp, hs⟩ := sampleAux_subperm n pop seeds
  exact hp.nodup_iff.mp (hs.nodup h)

theorem sampleAux_subset {α : Type} [DecidableEq α] (n : Nat) (pop : List α)
    (seeds : List Nat) : ∀ x ∈ sampleAux pop n seeds, x ∈ pop :=
  fun _ hx => (sampleAux_subperm n pop seeds).subset hx

theorem randint_ok {lo hi : Nat} (c : Nat) (h : lo ≤ hi) :
    randint lo hi c = .ok (lo + c % (hi + 1 - lo)) ∧
      lo ≤ lo + c % (hi + 1 - lo) ∧ lo + c % (hi + 1 - lo) ≤ hi := by
  have hmod : c % (hi + 1 - lo) < hi + 1 - lo := Nat.mod_lt _ (by omega)
  refine ⟨?_, by omega, by omega⟩
  unfold randint
  rw [if_neg (Nat.not_lt.mpr h)]

theorem sample_ok {α : Type} (pop : List α) (n : Nat) (seeds : List Nat)
    (h : n ≤ pop.length) : sample pop n seeds = .ok (sampleAux pop n seeds) := by
  unfold sample
  rw [if_neg (Nat.not_lt.mpr h)]

theorem playCalls_map_item {α : Type} :
    ∀ (k : Nat) (l : List (α × ℚ)),
      (playCalls k l).map PlayCall.item = l.map Prod.fst
  | _, [] => rfl
  | k, (p, v) :: rest => by
    simp only [playCalls, List.map_cons]
    rw [playCalls_map_item (k + 1) rest]

theorem playCalls_map_vol {α : Type} :
    ∀ (k : Nat) (l : List (α × ℚ)),
      (playCalls k l).map PlayCall.vol = l.map Prod.snd
  | _, [] => rfl
  | k, (p, v) :: rest => by
    simp only [playCalls, List.map_cons]
    rw [playCalls_map_vol (k + 1) rest]

theorem playCalls_length {α : Type} :
    ∀ (k : Nat) (l : List (α × ℚ)), (playCalls k l).length = l.length
  | _, [] => rfl
  | k, (p, v) :: rest => by
    simp only [playCalls, List.length_cons]
    rw [playCalls_length (k + 1) rest]

theorem playCalls_mem_item {α : Type} :
    ∀ (k : Nat) (l : List (α × ℚ)) (pc : PlayCall α),
      pc ∈ playCalls k l → pc.item ∈ l.map Prod.fst
  | _, [], _, h => by simp [playCalls] at h
  | k, (p, v) :: rest, pc, h => by
    simp only [playCalls, List.mem_cons] at h
    rcases h with h | h
    · subst h; simp
    · simp only [List.map_cons, List.mem_cons]
      exact Or.inr (playCalls_mem_item (k + 1) rest pc h)

theorem map_fst_zip_eq {α β : Type} :
    ∀ (l₁ : List α) (l₂ : List β), l₁.length = l₂.length →
      (l₁.zip l₂).map Prod.fst = l₁
  | [], [], _ => rfl
  | [], _ :: _, h => by simp at h
  | _ :: _, [], h => by simp at h
  | a :: l₁, b :: l₂, h => by
    simp only [List.zip_cons_cons, List.map_cons]
    rw [map_fst_zip_eq l₁ l₂ (by simpa using h)]

theorem map_snd_zip_eq {α β : Type} :
    ∀ (l₁ : List α) (l₂ : List β), l₁.length = l₂.length →
      (l₁.zip l₂).map Prod.snd = l₂
  | [], [], _ => rfl
  | [], _ :: _, h => by simp at h
  | _ :: _, [], h => by simp at h
  | a :: l₁, b :: l₂, h => by
    simp only [List.zip_cons_cons, List.map_cons]
    rw [map_snd_zip_eq l₁ l₂ (by simpa using h)]

theorem nonneg_sum_zero_all_zero :
    ∀ {l : List ℚ}, (∀ w ∈ l, 0 ≤ w) → l.sum = 0 → ∀ w ∈ l, w = 0
  | [], _, _, _, hw => by simp at hw
  | a :: l, h, hs, w, hw => by
    have ha : 0 ≤ a := h a (List.mem_cons_self a l)
    have hl : 0 ≤ l.sum :=
      List.sum_nonneg (fun x hx => h x (List.mem_cons_of_mem a hx))
    have hs' : a + l.sum = 0 := by simpa using hs
    have ha0 : a = 0 := by linarith
    have hl0 : l.sum = 0 := by linarith
    rcases List.mem_cons.mp hw with h1 | h1
    · exact h1.trans ha0
    · exact nonneg_sum_zero_all_zero
        (fun x hx => h x (List.mem_cons_of_mem a hx)) hl0 w h1

theorem volumesOf_eq_of_sum_ne (base : ℚ) (weights : List ℚ)
    (h : weights.sum ≠ 0) :
    volumesOf base weights =
      weights.map (fun w => base * (w / weights.sum)) := by
  unfold volumesOf
  rw [if_neg h]

theorem volumesOf_zero_sum (base : ℚ) (weights : List ℚ)
    (hw : ∀ w ∈ weights, 0 ≤ w) (h : weights.sum = 0) :
    volumesOf base weights = List.replicate weights.length 0 := by
  unfold volumesOf
  rw [if_pos h]
  refine List.eq_replicate_iff.mpr ⟨by simp, ?_⟩
  intro b hb
  obtain ⟨w, hwmem, rfl⟩ := List.mem_map.mp hb
  rw [nonneg_sum_zero_all_zero hw h w hwmem]
  simp

theorem volumesOf_sum_eq (base : ℚ) (weights : List ℚ)
    (h : weights.sum ≠ 0) : (volumesOf base weights).sum = base := by
  rw [volumesOf_eq_of_sum_ne base weights h]
  have hfun : (fun w => base * (w / weights.sum)) =
      (fun w => (base / weights.sum) * w) := by
    funext w; ring
  rw [hfun, List.sum_map_mul_left, List.map_id']
  field_simp

theorem volumesOf_sum_le (base : ℚ) (weights : List ℚ) (hb : 0 ≤ base)
    (hw : ∀ w ∈ weights, 0 ≤ w) : (volumesOf base weights).sum ≤ base := by
  by_cases h : weights.sum = 0
  · rw [volumesOf_zero_sum base weights hw h]
    simpa using hb
  · rw [volumesOf_sum_eq base weights h]

theorem volumesOf_length (base : ℚ) (weights : List ℚ) :
    (volumesOf base weights).length = weights.length := by
  unfold volumesOf
  simp

theorem randFloat_nonneg (s : Nat) : 0 ≤ randFloat s := by
  unfold randFloat
  positivity

/-! Claim theorems: process supervisor. -/

/-- Claim C8 (confirmed): for every poll in which the supervised process
is still alive (poll() returns None on a non-null handle),
handle_video_process spawns no new subprocess, emits no log, and returns
the same process handle unchanged. -/
theorem c8_running_poll_no_change (p : Proc) (launch : LaunchOutcome) :
    handleVideoProcess (some p) .alive launch =
      .ok { ret := some p, spawned := false, logs := [] } := rfl

/-- Claim C4 (confirmed): when a (re)start is due and the freshly
launched process has already exited within the 0.1 s grace window,
handle_video_process logs the crash at error level with the remediation
hint, returns a null handle, and raises no exception. -/
theorem c4_grace_window_crash (process : Option Proc) (pr : PollResult)
    (hns : hvpNeedsStart process pr = .ok true) (p : Proc) (code : Int) :
    handleVideoProcess process pr (.ok p (some code)) =
      .ok { ret := none, spawned := true,
            logs := [.infoStarting, .errDiedImmediately,
                     .warnPlaybackDisabled, .hintVideoDisabled] } := by
  unfold handleVideoProcess hvpBody
  rw [hns]

/-- Witness for C4: a call with no previous process whose launch dies
within the grace window. -/
theorem c4_grace_window_crash_witness :
    handleVideoProcess none .alive (.ok ⟨1⟩ (some 1)) =
      .ok { ret := none, spawned := true,
            logs := [.infoStarting, .errDiedImmediately,
                     .warnPlaybackDisabled, .hintVideoDisabled] } :=
  c4_grace_window_crash none .alive rfl ⟨1⟩ 1

/-- Counterexample to C7 as stated: with a non-null incoming handle
whose poll raises an unexpected exception, handle_video_process (both
variants) returns that same non-null handle, not the claimed null
handle. -/
theorem c7_unexpected_counterexample :
    (handleVideoProcess (some ⟨7⟩) .raisesUnexpected (.ok ⟨8⟩ none) =
      .ok { ret := some ⟨7⟩, spawned := false, logs := [.errUnexpected] }) ∧
    (skavenHandleVideoProcess (some ⟨7⟩) .raisesUnexpected (.ok ⟨8⟩ none) =
      .ok { ret := some ⟨7⟩, spawned := false, logs := [.errUnexpected] }) ∧
    some (⟨7⟩ : Proc) ≠ (none : Option Proc) :=
  ⟨rfl, rfl, by simp⟩

/-- Claim C7 (amended): every unexpected exception raised inside a poll
is logged and never propagates, but handle_video_process returns the
incoming handle unchanged (a null handle only when the incoming handle
was already null): an unexpected poll exception returns the live
handle; an unexpected launch exception returns the stale incoming
handle; and every input yields a normal return. -/
theorem c7_unexpected_logged_not_propagated (p : Proc)
    (process : Option Proc) (pr : PollResult) (launch : LaunchOutcome)
    (e : PyExn) (he : e.isException = true) (hnotOS : e.isOSError = false)
    (hne1 : e ≠ .calledProcessError) (hne2 : e ≠ .fileNotFound)
    (hns : hvpNeedsStart process pr = .ok true) :
    (handleVideoProcess (some p) .raisesUnexpected launch =
      .ok { ret := some p, spawned := false, logs := [.errUnexpected] }) ∧
    (handleVideoProcess process pr (.raise e) =
      .ok { ret := process, spawned := true, logs := [.errUnexpected] }) ∧
    (∀ (q : Option Proc) (pr' : PollResult) (l : LaunchOutcome),
      ∃ r, handleVideoProcess q pr' l = .ok r) := by
  refine ⟨rfl, ?_, ?_⟩
  · unfold handleVideoProcess hvpBody
    rw [hns]
    cases e <;> simp_all [PyExn.isOSError, PyExn.isException]
  · intro q pr' l
    cases hb : hvpBody q pr' l with
    | ok r =>
      exact ⟨r, by unfold handleVideoProcess; rw [hb]⟩
    | error es =>
      obtain ⟨e', sp⟩ := es
      cases e' <;> exact ⟨_, by unfold handleVideoProcess; rw [hb]; try rfl⟩

/-- Witness for C7 (amended): a stale dead handle whose restart raises
an unexpected RuntimeError. -/
theorem c7_unexpected_logged_not_propagated_witness :
    handleVideoProcess (some ⟨3⟩) (.exited 1) (.raise .runtimeError) =
      .ok { ret := some ⟨3⟩, spawned := true, logs := [.errUnexpected] } :=
  (c7_unexpected_logged_not_propagated ⟨3⟩ (some ⟨3⟩) (.exited 1)
    (.raise .runtimeError) .runtimeError rfl rfl
    (by simp) (by simp) rfl).2.1

/-- Counterexample to C1 as stated: event unset on both ticks, the
first launch dies in the grace window, the second launch would succeed;
yet run_video_loop makes exactly one handle_video_process call and one
spawn attempt and exits its loop — no retry occurs on the next tick. -/
theorem c1_no_retry_counterexample :
    runVideoLoop false
      [{ eventSet := false, pr := .alive, launch := .ok ⟨1⟩ (some 1) },
       { eventSet := false, pr := .alive, launch := .ok ⟨2⟩ none }] =
      .ok { lastProc := none, calls := 1, spawns := 1, exited := true } := rfl

/-- Claim C1 (amended): on a failed launch handle_video_process returns
a null handle, and run_video_loop then exits its poll loop immediately
(video disabled for the remainder of the run): whatever ticks remain
are never processed. -/
theorem c1_launch_failure_disables_loop (process : Option Proc)
    (st : RunState) (t : Tick) (rest : List Tick) (r : HVPRet)
    (hev : t.eventSet = false)
    (hh : handleVideoProcess process t.pr t.launch = .ok r)
    (hret : r.ret = none) :
    runVideoLoopAux process st (t :: rest) =
      .ok { lastProc := st.lastProc,
            calls := st.calls + 1,
            spawns := st.spawns + (if r.spawned then 1 else 0),
            exited := true } := by
  obtain ⟨ret, sp, logs⟩ := r
  simp only at hret
  subst hret
  unfold runVideoLoopAux
  rw [hev]
  simp only [Bool.false_eq_true, if_false]
  rw [hh]

/-- Witness for C1 (amended): an OSError launch failure on the first
tick; the successful launch waiting on the second tick is never
attempted. -/
theorem c1_launch_failure_disables_loop_witness :
    runVideoLoopAux none
      { lastProc := none, calls := 0, spawns := 0, exited := false }
      [{ eventSet := false, pr := .alive, launch := .raise .osError },
       { eventSet := false, pr := .alive, launch := .ok ⟨2⟩ none }] =
      .ok { lastProc := none, calls := 0 + 1,
            spawns := 0 + (if true then 1 else 0), exited := true } :=
  c1_launch_failure_disables_loop none _ _ _
    { ret := none, spawned := true
      logs := [.infoStarting, .errFailedToStart, .hintVideoDisabled] }
    rfl rfl rfl

/-! Claim theorems: weighted channel pick (rats_loop). -/

/-- Counterexample to C2 as stated: with a non-empty pool, an empty
channel list, and the stop event unset, the first iteration is not a
no-op — randint(1, 0) raises ValueError. -/
theorem c2_empty_channels_counterexample :
    ratsLoop ([0] : List Nat) 0
      [{ setAtTop := false, setAfterFade := false, nChoice := 0,
         sampleSeeds := [], weightSeeds := [], setAfterSleep := false }] =
      .error .valueError := rfl

/-- Claim C2 (amended): rats_loop is a no-op only when the item pool is
empty (it returns at once with no play call and no exception, for any
channel count); an empty channel list with a non-empty pool is not
guarded: the first iteration that reaches the pick raises ValueError
from randint(1, 0). -/
theorem c2_empty_pool_guard {α : Type} (nchans : Nat)
    (trace : List RatsRand) (files : List α) (o : RatsRand)
    (rest : List RatsRand) (hpool : files ≠ [])
    (htop : o.setAtTop = false) (hfade : o.setAfterFade = false) :
    ratsLoop ([] : List α) nchans trace = .ok [] ∧
    ratsLoop files 0 (o :: rest) = .error .valueError := by
  constructor
  · simp [ratsLoop]
  · unfold ratsLoop
    have hne : files.isEmpty = false := by
      simp only [List.isEmpty_eq_false]
      exact hpool
    rw [hne]
    simp only [Bool.false_eq_true, if_false]
    unfold ratsLoopAux
    rw [htop]
    simp only [Bool.false_eq_true, if_false]
    unfold ratsIter
    rw [hfade]
    simp only [Bool.false_eq_true, if_false, Nat.zero_min]
    simp [randint]

/-- Witness for C2 (amended): pool of one file, zero channels, event
never set. -/
theorem c2_empty_pool_guard_witness :
    ratsLoop ([] : List Nat) 0 [] = .ok [] ∧
    ratsLoop ([5] : List Nat) 0
      [{ setAtTop := false, setAfterFade := false, nChoice := 3,
         sampleSeeds := [], weightSeeds := [], setAfterSleep := false }] =
      .error .valueError :=
  c2_empty_pool_guard 0 [] [5] _ [] (by simp) rfl rfl

/-- Counterexample to C3 as stated: with an all-zero weight vector of
length 2, the code assigns volume 0 to both picks — not the claimed
uniform baseVolume * (1/2). -/
theorem c3_zero_weights_counterexample :
    volumesOf SOUND_VOLUME_DEFAULT [0, 0] = [0, 0] ∧
    volumesOf SOUND_VOLUME_DEFAULT [0, 0] ≠
      [SOUND_VOLUME_DEFAULT * (1 / 2), SOUND_VOLUME_DEFAULT * (1 / 2)] := by
  constructor
  · norm_num [volumesOf]
  · norm_num [volumesOf, SOUND_VOLUME_DEFAULT]

/-- Claim C3 (amended): each assigned volume equals
baseVolume * weight_i / sum(weights); when sum(weights) == 0 the
divide-by-zero guard substitutes 1.0 for the total, so (the weights
being all zero) every assigned volume is 0 — not 1/n each. -/
theorem c3_volume_normalization (base : ℚ) (weights : List ℚ)
    (hw : ∀ w ∈ weights, 0 ≤ w) :
    (weights.sum ≠ 0 →
      volumesOf base weights =
        weights.map (fun w => base * (w / weights.sum))) ∧
    (weights.sum = 0 →
      volumesOf base weights = List.replicate weights.length 0) :=
  ⟨fun h => volumesOf_eq_of_sum_ne base weights h,
   fun h => volumesOf_zero_sum base weights hw h⟩

/-- Witness for C3 (amended): two equal weights normalize to half the
base volume each. -/
theorem c3_volume_normalization_witness :
    volumesOf (3 / 4 : ℚ) [1 / 2, 1 / 2] = [3 / 8, 3 / 8] := by
  have h := (c3_volume_normalization (3 / 4) [1 / 2, 1 / 2]
    (by norm_num)).1 (by norm_num)
  rw [h]
  norm_num

/-- Claim C5 (confirmed): with a non-empty pool and a non-empty channel
list, any iteration that reaches the pick plays n items with
1 ≤ n ≤ min(channels, pool), the picked items are distinct and drawn
from the pool, and the assigned volumes sum to at most
SOUND_VOLUME_DEFAULT. -/
theorem c5_pick_invariants {α : Type} [DecidableEq α] (files : List α)
    (nchans : Nat) (o : RatsRand) (hfade : o.setAfterFade = false)
    (hfiles : files ≠ []) (hch : nchans ≠ 0) (hnd : files.Nodup) :
    ∃ st : IterStep α, ratsIter files nchans o = .ok st ∧
      1 ≤ st.plays.length ∧
      st.plays.length ≤ min nchans files.length ∧
      (st.plays.map PlayCall.item).Nodup ∧
      (∀ pc ∈ st.plays, pc.item ∈ files) ∧
      (st.plays.map PlayCall.vol).sum ≤ SOUND_VOLUME_DEFAULT := by
  have hmax1 : 1 ≤ min nchans files.length := by
    have h1 : 0 < files.length := List.length_pos.mpr hfiles
    omega
  obtain ⟨hre, hn1, hn2⟩ :=
    @randint_ok 1 (min nchans files.length) o.nChoice hmax1
  set n := 1 + o.nChoice % (min nchans files.length + 1 - 1) with hndef
  have hnle : n ≤ files.length := le_trans hn2 (Nat.min_le_right _ _)
  set picks := sampleAux files n o.sampleSeeds with hpicksdef
  have hplen : picks.length = n := sampleAux_length n files o.sampleSeeds hnle
  set weights :=
    (List.range picks.length).map (fun i => randFloat (o.weightSeeds.getD i 0))
    with hwdef
  have hwlen : weights.length = picks.length := by
    rw [hwdef]
    simp
  set vols := volumesOf SOUND_VOLUME_DEFAULT weights with hvdef
  have hvlen : vols.length = picks.length := by
    rw [hvdef, volumesOf_length, hwlen]
  set plays := playCalls 0 (picks.zip vols) with hpdef
  have hplayslen : plays.length = n := by
    rw [hpdef, playCalls_length, List.length_zip, hvlen, Nat.min_self, hplen]
  have hiter : ratsIter files nchans o =
      .ok (if o.setAfterSleep then .brk plays else .next plays) := by
    simp only [ratsIter, hfade, Bool.false_eq_true, if_false, hre,
      sample_ok files n o.sampleSeeds hnle]
    split <;> rfl
  have hitems : plays.map PlayCall.item = picks := by
    rw [hpdef, playCalls_map_item, map_fst_zip_eq picks vols hvlen.symm]
  have hvolsmap : plays.map PlayCall.vol = vols := by
    rw [hpdef, playCalls_map_vol, map_snd_zip_eq picks vols hvlen.symm]
  have hwnn : ∀ w ∈ weights, 0 ≤ w := by
    intro w hwmem
    rw [hwdef] at hwmem
    obtain ⟨i, _, rfl⟩ := List.mem_map.mp hwmem
    exact randFloat_nonneg _
  have hsum : (plays.map PlayCall.vol).sum ≤ SOUND_VOLUME_DEFAULT := by
    rw [hvolsmap, hvdef]
    exact volumesOf_sum_le SOUND_VOLUME_DEFAULT weights (by norm_num [SOUND_VOLUME_DEFAULT]) hwnn
  refine ⟨if o.setAfterSleep then .brk plays else .next plays, hiter, ?_⟩
  have hstp : (if o.setAfterSleep then IterStep.brk plays
      else IterStep.next plays).plays = plays := by
    by_cases hc : o.setAfterSleep <;> simp [IterStep.plays, hc]
  rw [hstp]
  refine ⟨by omega, by omega, ?_, ?_, hsum⟩
  · rw [hitems, hpicksdef]
    exact sampleAux_nodup n files o.sampleSeeds hnd
  · intro pc hpc
    have hmem := playCalls_mem_item 0 (picks.zip vols) pc (hpdef ▸ hpc)
    rw [map_fst_zip_eq picks vols hvlen.symm] at hmem
    exact sampleAux_subset n files o.sampleSeeds pc.item (hpicksdef ▸ hmem)

/-- Witness for C5: pool of two files, two channels, event unset. -/
theorem c5_pick_invariants_witness :
    ∃ st : IterStep Nat,
      ratsIter [0, 1] 2
        { setAtTop := false, setAfterFade := false, nChoice := 0,
          sampleSeeds := [], weightSeeds := [], setAfterSleep := false } =
        .ok st ∧
      1 ≤ st.plays.length ∧
      st.plays.length ≤ min 2 ([0, 1] : List Nat).length ∧
      (st.plays.map PlayCall.item).Nodup ∧
      (∀ pc ∈ st.plays, pc.item ∈ ([0, 1] : List Nat)) ∧
      (st.plays.map PlayCall.vol).sum ≤ SOUND_VOLUME_DEFAULT :=
  c5_pick_invariants [0, 1] 2 _ rfl (by simp) (by simp) (by simp)

/-! Claim theorems: shutdown, bell, lighting. -/

theorem joinThreadsAux_ok :
    ∀ (ts : List (Option PyExn)) (acc : List JoinLog),
      (∀ t ∈ ts,
        t = none ∨ t = some .attributeError ∨ t = some .runtimeError) →
      ∃ logs, joinThreadsAux ts acc = .ok logs ∧
        logs.length = acc.length + ts.length
  | [], acc, _ => ⟨acc, rfl, by simp [joinThreadsAux]⟩
  | t :: ts, acc, h => by
    have hrest : ∀ x ∈ ts,
        x = none ∨ x = some .attributeError ∨ x = some .runtimeError :=
      fun x hx => h x (List.mem_cons_of_mem t hx)
    rcases h t (List.mem_cons_self t ts) with rfl | rfl | rfl
    · obtain ⟨logs, h1, h2⟩ := joinThreadsAux_ok ts (acc ++ [.joined]) hrest
      refine ⟨logs, h1, ?_⟩
      simp at h2 ⊢
      omega
    · obtain ⟨logs, h1, h2⟩ := joinThreadsAux_ok ts (acc ++ [.warnAttr]) hrest
      refine ⟨logs, h1, ?_⟩
      simp at h2 ⊢
      omega
    · obtain ⟨logs, h1, h2⟩ := joinThreadsAux_ok ts (acc ++ [.warnRuntime]) hrest
      refine ⟨logs, h1, ?_⟩
      simp at h2 ⊢
      omega

theorem joinThreadsAux_all_none :
    ∀ (k : Nat) (acc : List JoinLog),
      joinThreadsAux (List.replicate k none) acc =
        .ok (acc ++ List.replicate k .joined)
  | 0, acc => by simp [joinThreadsAux]
  | k + 1, acc => by
    simp only [List.replicate_succ, joinThreadsAux]
    rw [joinThreadsAux_all_none k (acc ++ [JoinLog.joined])]
    simp

/-- Counterexample to C6 as stated: with video disabled, the stop event
unset, and no KeyboardInterrupt arriving during the observed waits,
handle_shutdown is still blocked in its pre-join wait loop — it has
neither set the cancellation event nor joined any task, so it does not
unconditionally complete. -/
theorem c6_shutdown_blocks_counterexample :
    handleShutdown
      { noVideo := true, eventSet := false,
        interrupts := [false, false, false], videoPhase := .stillRunning }
      [] = .blocked := rfl

/-- Claim C6 (amended): once the pre-join phase of handle_shutdown
exits (the stop event was observed set or a KeyboardInterrupt arrived),
handle_shutdown sets the cancellation event, joins every task in the
list — logging rather than propagating AttributeError and RuntimeError
from joins — and returns; a second call with the event already set and
all tasks already finished exits the pre-phase immediately and does
not raise.  When the pre-join phase never exits, handle_shutdown
blocks, so it does not unconditionally complete. -/
theorem c6_shutdown_after_prephase (env : ShutdownEnv)
    (tasks : List (Option PyExn))
    (hpre : shutdownPrePhase env ≠ .stillRunning)
    (htasks : ∀ t ∈ tasks,
      t = none ∨ t = some .attributeError ∨ t = some .runtimeError) :
    (∃ logs, handleShutdown env tasks = .done true logs ∧
      logs.length = tasks.length) ∧
    (∀ (intr : List Bool) (vp : PrePhase),
      handleShutdown
        { noVideo := true, eventSet := true, interrupts := intr,
          videoPhase := vp }
        (List.replicate tasks.length none) =
      .done true (List.replicate tasks.length .joined)) := by
  constructor
  · obtain ⟨logs, h1, h2⟩ := joinThreadsAux_ok tasks [] htasks
    refine ⟨logs, ?_, by simpa using h2⟩
    unfold handleShutdown
    cases hp : shutdownPrePhase env with
    | stillRunning => exact absurd hp hpre
    | exitedNormally => simp [joinThreads, h1]
    | interrupted => simp [joinThreads, h1]
  · intro intr vp
    have hpre2 : shutdownPrePhase
        { noVideo := true, eventSet := true, interrupts := intr,
          videoPhase := vp } = .exitedNormally := by
      unfold shutdownPrePhase noVideoWaitLoop
      cases intr <;> simp [noVideoWaitLoop]
    unfold handleShutdown
    rw [hpre2]
    simp [joinThreads, joinThreadsAux_all_none]

/-- Witness for C6 (amended): a KeyboardInterrupt arrives during the
first wait; three tasks, one joining cleanly, one raising
AttributeError, one raising RuntimeError. -/
theorem c6_shutdown_after_prephase_witness :
    ∃ logs, handleShutdown
      { noVideo := true, eventSet := false, interrupts := [true],
        videoPhase := .stillRunning }
      [none, some .attributeError, some .runtimeError] = .done true logs ∧
      logs.length =
        ([none, some PyExn.attributeError, some PyExn.runtimeError]).length :=
  (c6_shutdown_after_prephase _ _ (by decide) (by decide)).1

theorem bellSwings_ok :
    ∀ (steps : List SwingStep),
      (∀ s ∈ steps, ∀ e, s.setRaises = some e → e.isException = true) →
      ∃ r, bellSwings steps = .ok r
  | [], _ => ⟨([], false), rfl⟩
  | s :: rest, h => by
    have hrest : ∀ x ∈ rest, ∀ e, x.setRaises = some e → e.isException = true :=
      fun x hx => h x (List.mem_cons_of_mem s hx)
    by_cases htop : s.stopAtTop
    · exact ⟨([], false), by simp [bellSwings, htop]⟩
    · cases hsr : s.setRaises with
      | some e =>
        have he := h s (List.mem_cons_self s rest) e hsr
        exact ⟨([], true), by simp [bellSwings, htop, hsr, he]⟩
      | none =>
        by_cases hw : s.waitInterrupted
        · exact ⟨([.setPos], false), by simp [bellSwings, htop, hsr, hw]⟩
        · obtain ⟨⟨evs, err⟩, hr⟩ := bellSwings_ok rest hrest
          exact ⟨(.setPos :: evs, err),
            by simp [bellSwings, htop, hsr, hw, hr]⟩

/-- Claim C9 (confirmed): with a non-null servo, every execution of
move_bell in which swing-step and parking failures are Exception-class
ends with the parking call — the servo effect list ends in mid — no
exception propagates, and a failing parking call is recorded (logged)
rather than raised. -/
theorem c9_bell_always_parks (steps : List SwingStep) (midR : Option PyExn)
    (hsteps : ∀ s ∈ steps, ∀ e, s.setRaises = some e → e.isException = true)
    (hmid : ∀ e, midR = some e → e.isException = true) :
    ∃ r : MoveBellResult, moveBell true steps midR = .ok r ∧
      (∃ pre, r.effects = pre ++ [.mid]) ∧
      (midR.isSome → r.midError = true) := by
  obtain ⟨⟨evs, err⟩, hb⟩ := bellSwings_ok steps hsteps
  cases midR with
  | none =>
    exact ⟨{ effects := evs ++ [.mid], swingError := err, midError := false },
      by simp [moveBell, hb], ⟨evs, rfl⟩, by simp⟩
  | some e =>
    have he := hmid e rfl
    exact ⟨{ effects := evs ++ [.mid], swingError := err, midError := true },
      by simp [moveBell, hb, he], ⟨evs, rfl⟩, by simp⟩

/-- Witness for C9: one swing whose servo write raises, and a parking
call that itself raises; the park is still attempted and recorded. -/
theorem c9_bell_always_parks_witness :
    ∃ r : MoveBellResult,
      moveBell true
        [{ stopAtTop := false, setRaises := some .otherError,
           waitInterrupted := false }] (some .runtimeError) = .ok r ∧
      (∃ pre, r.effects = pre ++ [.mid]) ∧
      ((some PyExn.runtimeError).isSome → r.midError = true) :=
  c9_bell_always_parks _ _ (by decide) (by decide)

/-- Claim C10 (confirmed): whenever the lighting loop (either variant)
exits — because the stop event was observed set or because the update
body raised — the final LED actions before returning or re-raising are
fill((0,0,0)) followed by show(). -/
theorem c10_lighting_blanks_on_exit (trace trace2 : List LightIter)
    (evs evs2 : List LightEv) (exn exn2 : Option PyExn)
    (h1 : flickerBreathe trace = some (evs, exn))
    (h2 : skavenFlickerBreathe trace2 = some (evs2, exn2)) :
    (∃ pre, evs = pre ++ [.fill000, .show]) ∧
    (∃ pre, evs2 = pre ++ [.fill000, .show]) := by
  constructor
  · unfold flickerBreathe at h1
    cases hl : lightingLoop trace with
    | none => rw [hl] at h1; simp at h1
    | some r =>
      obtain ⟨evs', exn'⟩ := r
      rw [hl] at h1
      simp only [Option.some.injEq, Prod.mk.injEq] at h1
      exact ⟨evs', h1.1.symm⟩
  · unfold skavenFlickerBreathe at h2
    cases hl : skavenLightingLoop trace2 with
    | none => rw [hl] at h2; simp at h2
    | some r =>
      obtain ⟨evs', exn'⟩ := r
      rw [hl] at h2
      simp only [Option.some.injEq, Prod.mk.injEq] at h2
      exact ⟨evs', h2.1.symm⟩

/-- Witness for C10: the displayboard loop exits via the stop event on
its first wait; the skaven loop exits via an exception in its first
update body.  Both end with the blanking fill and show. -/
theorem c10_lighting_blanks_on_exit_witness :
    (∃ pre, ([.fill000, .show] : List LightEv) = pre ++ [.fill000, .show]) ∧
    (∃ pre, ([.update, .fill000, .show] : List LightEv) =
      pre ++ [.fill000, .show]) :=
  c10_lighting_blanks_on_exit
    [{ eventSet := true, bodyRaises := none }]
    [{ eventSet := false, bodyRaises := some .otherError }]
    _ _ _ _ rfl rfl

end Displayboard
